import Mathlib

/-
Verification of the mixture-ingestion pipeline
(`src/HeeJoon/src/data/mixture_ingest.py`): page-count computation,
pagination and item unwrapping in `fetch_all_from_api`, record
normalization in `clean_record` / `_parse_date_yyyymmdd`, batched
upserts in `upsert_to_supabase`, and the configuration guard in
`fetch_mixture_data`.

The embedding follows the data model of the pipeline: a raw record maps
field names to atomic JSON values (string, number, boolean, or null);
the `items` array of a page holds either such records, possibly wrapped in a
one-level `\x7b"item": X\x7d` envelope, or stray atomic values.  Numbers are
modelled as integers (the ingestion path never produces fractional
field values).  Network calls are modelled by an oracle function from
request parameters to responses, and the functions that perform
requests additionally return the ordered trace of requests they issue.
-/

set_option maxRecDepth 4000

namespace MixtureIngest

/-- An atomic JSON value as it appears in the fields of a raw record:
`null`, a boolean, a number (modelled as an integer), or a string. -/
inductive Value where
  | null : Value
  | bool : Bool → Value
  | int : Int → Value
  | str : String → Value
deriving DecidableEq, Repr

/-- A raw record: a finite mapping from field names to atomic values,
modelled as an association list (first binding wins, as Python dict
keys are unique). -/
abbrev RawRecord := List (String × Value)

/-- A field of a JSON object appearing in the `items` array of a page:
either an atomic value or a nested object (a raw record).  This covers
the `\x7b"item": X\x7d` envelope, whose payload is a raw record. -/
inductive Field where
  | atom : Value → Field
  | record : RawRecord → Field
deriving DecidableEq, Repr

/-- One element of the `items` array of a page: a JSON object (whose fields
are atoms or nested records) or a stray non-object value. -/
inductive Item where
  | atom : Value → Item
  | obj : List (String × Field) → Item
deriving DecidableEq, Repr

/-- A raw record viewed as an element of an `items` array (an object
all of whose fields are atomic). -/
def RawRecord.toItem (r : RawRecord) : Item :=
  Item.obj (r.map (fun p => (p.1, Field.atom p.2)))

/-- The item denoted by an object field: an atom stays an atom, a
nested record becomes the corresponding object. -/
def Field.toItem : Field → Item
  | Field.atom v => Item.atom v
  | Field.record r => RawRecord.toItem r

/-- The 19 canonical columns of the `mixtures` table
(`MIXTURE_COLUMNS` in the source). -/
def MIXTURE_COLUMNS : List String :=
  [ "TYPE_NAME",
    "MIX_TYPE",
    "INGR_CODE",
    "INGR_ENG_NAME",
    "INGR_KOR_NAME",
    "MIX",
    "ORI",
    "CLASS",
    "MIXTURE_MIX_TYPE",
    "MIXTURE_INGR_CODE",
    "MIXTURE_INGR_ENG_NAME",
    "MIXTURE_INGR_KOR_NAME",
    "MIXTURE_MIX",
    "MIXTURE_ORI",
    "MIXTURE_CLASS",
    "NOTIFICATION_DATE",
    "PROHBT_CONTENT",
    "REMARK",
    "DEL_YN" ]

/-- The Python builtin `str()` on an atomic value: `None`, `True` / `False`,
decimal integers, and strings unchanged. -/
def pyStr : Value → String
  | Value.null => "None"
  | Value.bool true => "True"
  | Value.bool false => "False"
  | Value.int n => toString n
  | Value.str s => s

/-- The Python method `str.lower` (character-wise lowercasing; the column names
involved are ASCII). -/
def pyLower (s : String) : String :=
  String.mk (s.data.map Char.toLower)

/-- The Python method `str.upper` (character-wise uppercasing; the column names
involved are ASCII). -/
def pyUpper (s : String) : String :=
  String.mk (s.data.map Char.toUpper)

/-- The Python method `str.strip()`: remove leading and trailing whitespace. -/
def pyStrip (s : String) : String :=
  String.mk (((s.data.dropWhile Char.isWhitespace).reverse.dropWhile
    Char.isWhitespace).reverse)

/-- The Python slice `s[a:b]` on a string (character positions). -/
def pySlice (s : String) (a b : Nat) : String :=
  String.mk ((s.data.take b).drop a)

/-- Python truthiness of an atomic value (`not value` in the source):
`None`, `False`, `0` and the empty string are falsy. -/
def pyFalsy : Value → Bool
  | Value.null => true
  | Value.bool b => !b
  | Value.int n => n == 0
  | Value.str s => s.data.isEmpty

/-- The Python method `str.isdigit` restricted to ASCII digits (the dates
of this pipeline are ASCII `YYYYMMDD` strings; exotic Unicode digit classes are
out of scope). -/
def pyIsdigit (s : String) : Bool :=
  !s.data.isEmpty && s.data.all Char.isDigit

/-- `_parse_date_yyyymmdd` from the source: a falsy value yields
`None`; an 8-character all-numeric string (after stripping) is
reformatted `YYYY-MM-DD`; anything else passes through stripped.
The function receives the resolved field value, which need not be a
string. -/
def _parse_date_yyyymmdd (value : Value) : Option String :=
  if pyFalsy value then none
  else
    let s := pyStrip (pyStr value)
    if s.length == 8 && pyIsdigit s then
      some (pySlice s 0 4 ++ "-" ++ pySlice s 4 6 ++ "-" ++ pySlice s 6 8)
    else some s

/-- The field-resolution step of `clean_record`: try the exact column
name, then its lowercase form, then its uppercase form; missing in all
three resolves to null. -/
def resolve_field (raw : RawRecord) (col : String) : Value :=
  match raw.lookup col with
  | some v => v
  | none =>
    match raw.lookup (pyLower col) with
    | some v => v
    | none =>
      match raw.lookup (pyUpper col) with
      | some v => v
      | none => Value.null

/-- The tuple of falsy tokens tested by `clean_record` for `DEL_YN`:
`(False, "f", "false", "False", "N", "n", "0", 0)`. -/
def del_yn_falsy_tokens : List Value :=
  [ Value.bool false, Value.str "f", Value.str "false", Value.str "False",
    Value.str "N", Value.str "n", Value.str "0", Value.int 0 ]

/-- `clean_record` from the source: for each canonical column resolve
the value case-insensitively, then normalize `NOTIFICATION_DATE` via
`_parse_date_yyyymmdd`, coerce `DEL_YN` to a boolean ("정상" or a falsy
token gives `False`, everything else `True`), and stringify-and-strip
every other column (null becomes the empty string). -/
def clean_record (raw : RawRecord) : RawRecord :=
  MIXTURE_COLUMNS.map (fun col =>
    let val := resolve_field raw col
    if col = "NOTIFICATION_DATE" then
      (col, (_parse_date_yyyymmdd val).elim Value.null Value.str)
    else if col = "DEL_YN" then
      (col, if val = Value.str "정상" ∨ val ∈ del_yn_falsy_tokens then
              Value.bool false
            else
              Value.bool true)
    else
      (col, if val = Value.null then Value.str ""
            else Value.str (pyStrip (pyStr val))))

/-- The `body` object of an API page response, with its two optional
fields.  `response.get("body", \x7b\x7d).get("totalCount", 0)` defaults a
missing `totalCount` to `0`, and `.get("items", [])` defaults missing
`items` to the empty list. -/
structure Body where
  totalCount : Option Int
  items : Option (List Item)
deriving DecidableEq, Repr

/-- A decoded API page response: the `body` object may itself be
absent. -/
structure PageResp where
  body : Option Body
deriving DecidableEq, Repr

/-- `page.get("body", \x7b\x7d).get("totalCount", 0)` from the source. -/
def body_total_count (resp : PageResp) : Int :=
  match resp.body with
  | none => 0
  | some b => b.totalCount.getD 0

/-- `data.get("body", \x7b\x7d).get("items", [])` from the source. -/
def body_items (resp : PageResp) : List Item :=
  match resp.body with
  | none => []
  | some b => b.items.getD []

/-- The page-count computation of `fetch_all_from_api`:
`math.ceil(total_count / num_of_rows) if num_of_rows > 0 else 1`,
with the true division and ceiling taken over the rationals. -/
def total_pages (total_count num_of_rows : Int) : Int :=
  if 0 < num_of_rows then ⌈(total_count : ℚ) / (num_of_rows : ℚ)⌉ else 1

/-- The per-item unwrapping step of `fetch_all_from_api`: an object
containing the key `"item"` contributes the value stored there
(`isinstance(w, dict) and "item" in w`); any other item is appended
as-is. -/
def unwrap_item (w : Item) : Item :=
  match w with
  | Item.obj entries =>
    match entries.lookup "item" with
    | some f => f.toItem
    | none => Item.obj entries
  | Item.atom v => Item.atom v

/-- The accumulation loop of `fetch_all_from_api`: starting from the
empty list, append the unwrapped items of each page in page order. -/
def collect_items (pages : List (List Item)) : List Item :=
  pages.foldl (fun acc items => acc ++ items.map unwrap_item) []

/-- `fetch_all_from_api` from the source, with the network modelled by
an oracle `api : pageNo → numOfRows → response`.  Returns the
accumulated items together with the ordered trace of
`(pageNo, numOfRows)` requests issued: first the probe
(page 1, one row), then pages `1 .. total_pages`
(`range(1, total_pages + 1)`, empty when `total_pages ≤ 0`) at the
configured page size. -/
def fetch_all_from_api (api : Nat → Int → PageResp) (num_of_rows : Int) :
    List Item × List (Nat × Int) :=
  let first_page := api 1 1
  let total_count := body_total_count first_page
  let tp := total_pages total_count num_of_rows
  let page_nums : List Nat := List.range' 1 tp.toNat
  (collect_items (page_nums.map (fun p => body_items (api p num_of_rows))),
   (1, 1) :: page_nums.map (fun p => (p, num_of_rows)))

/-- `upsert_to_supabase` from the source, modelled as the list of
batches it sends, in order (one upsert call per batch): nothing for an
empty input, otherwise `math.ceil(total / batch_size)` slices
`rows[i*batch_size : (i+1)*batch_size]`. -/
def upsert_to_supabase {α : Type} (rows : List α) (batch_size : Nat := 500) :
    List (List α) :=
  if rows.length = 0 then []
  else
    let batches := (⌈(rows.length : ℚ) / (batch_size : ℚ)⌉).toNat
    (List.range batches).map (fun i => (rows.drop (i * batch_size)).take batch_size)

/-- `fetch_mixture_data` from the source: a missing base URL or
service key raises a `ValueError` before any request is made;
otherwise the collector runs.  The result is paired with the trace of
network requests performed (empty when the guard fires).  The optional
raw-snapshot file write is I/O outside this model. -/
def fetch_mixture_data (base_url service_key : String)
    (api : Nat → Int → PageResp) (num_of_rows : Int) :
    Except String (List Item) × List (Nat × Int) :=
  if base_url.data.isEmpty then
    (Except.error ".env에서 MIXTURE_API_BASE_URL을 설정해주세요", [])
  else if service_key.data.isEmpty then
    (Except.error ".env에서 MIXTURE_API_SERVICE_KEY를 설정해주세요", [])
  else
    let r := fetch_all_from_api api num_of_rows
    (Except.ok r.1, r.2)

end MixtureIngest

namespace MixtureIngest

/-- Helper: the rational ceiling of `n / b` (the value of the Python
expression `math.ceil(n / b)` for nonnegative integer operands) equals
the natural-number ceiling division `(n + b - 1) / b`. -/
theorem ceil_natCast_div (n b : ℕ) (hb : 0 < b) :
    ⌈(n : ℚ) / (b : ℚ)⌉ = (((n + b - 1) / b : ℕ) : ℤ) := by
  have hb' : (0 : ℚ) < (b : ℚ) := by exact_mod_cast hb
  have hdm := Nat.div_add_mod (n + b - 1) b
  have hmlt : (n + b - 1) % b < b := Nat.mod_lt _ hb
  set q := (n + b - 1) / b with hq
  have h1 : n ≤ b * q := by omega
  have h2 : b * q < n + b := by omega
  rw [Int.ceil_eq_iff]
  refine ⟨?_, ?_⟩
  · rw [lt_div_iff₀ hb']
    have h2' : (b : ℚ) * q < (n : ℚ) + b := by exact_mod_cast h2
    push_cast
    nlinarith
  · rw [div_le_iff₀ hb']
    have h1' : (n : ℚ) ≤ (b : ℚ) * q := by exact_mod_cast h1
    push_cast
    nlinarith

/-- Helper: chunking a list into `k` consecutive `bs`-sized slices and
concatenating the chunks recovers the list, provided `k` chunks
suffice to cover it. -/
theorem range_map_drop_take_flatten {α : Type} (bs : ℕ) :
    ∀ (k : ℕ) (l : List α), l.length ≤ k * bs →
      ((List.range k).map (fun i => (l.drop (i * bs)).take bs)).flatten = l := by
  intro k
  induction k with
  | zero =>
    intro l hl
    have : l = [] := by
      cases l with
      | nil => rfl
      | cons a t => simp at hl
    simp [this]
  | succ k ih =>
    intro l hl
    rw [List.range_succ_eq_map, List.map_cons, List.map_map]
    have hstep : (List.range k).map ((fun i => (l.drop (i * bs)).take bs) ∘ Nat.succ) =
        (List.range k).map (fun i => ((l.drop bs).drop (i * bs)).take bs) := by
      apply List.map_congr_left
      intro i _
      simp only [Function.comp]
      rw [List.drop_drop]
      congr 2
      rw [Nat.succ_mul]
      omega
    rw [hstep]
    simp only [Nat.zero_mul, List.drop_zero, List.flatten_cons]
    rw [Nat.succ_mul] at hl
    rw [ih (l.drop bs) (by simp [List.length_drop]; omega)]
    exact List.take_append_drop bs l

/-- Helper: a string has empty character data exactly when it is the
empty string. -/
theorem string_data_isEmpty_iff (s : String) : s.data.isEmpty = true ↔ s = "" := by
  rw [String.ext_iff]
  have h0 : ("" : String).data = [] := rfl
  rw [h0]
  cases h : s.data <;> simp [List.isEmpty]

/-- Helper: the left fold that appends the unwrapped items of each
page equals the accumulator followed by the flattened per-page maps. -/
theorem collect_items_foldl_append (f : List Item → List Item) :
    ∀ (pages : List (List Item)) (acc : List Item),
      pages.foldl (fun a its => a ++ f its) acc = acc ++ (pages.map f).flatten := by
  intro pages
  induction pages with
  | nil => intro acc; simp
  | cons p t ih => intro acc; simp [ih, List.append_assoc]

/-- C1 (amended): for pageSize > 0 the Collector computes
`totalPages = ceil(totalCount / pageSize)` with no minimum clamp (the
fallback value 1 applies only when pageSize ≤ 0, not as a lower
bound): the rational ceiling equals the integer formula
`(totalCount + pageSize - 1) / pageSize`, `totalCount = 1001` with
`pageSize = 500` gives 3 pages, `totalCount = 0` gives 0 pages, and
the request trace of `fetch_all_from_api` has exactly
`1 + max(totalPages, 0)` entries (probe plus data pages). -/
theorem total_pages_ceil_spec :
    (∀ tc rows : Int, 0 ≤ tc → 0 < rows →
      total_pages tc rows = (((tc.toNat + rows.toNat - 1) / rows.toNat : ℕ) : ℤ)) ∧
    total_pages 1001 500 = 3 ∧ total_pages 0 500 = 0 ∧
    (∀ (api : Nat → Int → PageResp) (rows : Int),
      (fetch_all_from_api api rows).2.length =
        1 + (total_pages (body_total_count (api 1 1)) rows).toNat) := by
  have hmain : ∀ tc rows : Int, 0 ≤ tc → 0 < rows →
      total_pages tc rows = (((tc.toNat + rows.toNat - 1) / rows.toNat : ℕ) : ℤ) := by
    intro tc rows htc hrows
    have hrn : 0 < rows.toNat := by omega
    have e1 : (tc : ℚ) = ((tc.toNat : ℕ) : ℚ) := by
      exact_mod_cast congrArg (fun z : ℤ => (z : ℚ)) (Int.toNat_of_nonneg htc).symm
    have e2 : (rows : ℚ) = ((rows.toNat : ℕ) : ℚ) := by
      exact_mod_cast congrArg (fun z : ℤ => (z : ℚ)) (Int.toNat_of_nonneg (le_of_lt hrows)).symm
    unfold total_pages
    rw [if_pos hrows, e1, e2]
    exact ceil_natCast_div tc.toNat rows.toNat hrn
  refine ⟨hmain, ?_, ?_, ?_⟩
  · rw [hmain 1001 500 (by norm_num) (by norm_num)]; decide
  · rw [hmain 0 500 (by norm_num) (by norm_num)]; decide
  · intro api rows
    show ((1, 1) :: (List.range' 1 (total_pages (body_total_count (api 1 1)) rows).toNat).map
      (fun p => (p, rows))).length = 1 + (total_pages (body_total_count (api 1 1)) rows).toNat
    rw [List.length_cons, List.length_map, List.length_range']
    omega

/-- C1 counterexample: at `totalCount = 0`, `pageSize = 500` the code
computes 0 total pages, not the minimum of 1 asserted by the claim. -/
theorem total_pages_zero_count_cex :
    total_pages 0 500 = 0 ∧ total_pages 0 500 ≠ 1 := by
  have h : total_pages 0 500 = 0 := by
    unfold total_pages
    rw [if_pos (by norm_num)]
    norm_num
  exact ⟨h, by rw [h]; decide⟩

/-- C1 witness: the amended page-count formula instantiated at
`totalCount = 1001`, `pageSize = 500`. -/
theorem total_pages_ceil_spec_witness :
    0 ≤ (1001 : Int) ∧ 0 < (500 : Int) ∧
    total_pages 1001 500 =
      ((((1001 : Int).toNat + (500 : Int).toNat - 1) / (500 : Int).toNat : ℕ) : ℤ) :=
  ⟨by decide, by decide, total_pages_ceil_spec.1 1001 500 (by decide) (by decide)⟩

/-- C2: for every input record, `clean_record` produces exactly the 19
canonical columns (in canonical order, hence with exactly the
canonical key set), and every produced value is a string, except
`NOTIFICATION_DATE` (string or null) and `DEL_YN` (boolean). -/
theorem clean_record_shape_spec :
    ∀ raw : RawRecord,
      (clean_record raw).map Prod.fst = MIXTURE_COLUMNS ∧
      ∀ p ∈ clean_record raw,
        (p.1 = "NOTIFICATION_DATE" ∧ (p.2 = Value.null ∨ ∃ s, p.2 = Value.str s)) ∨
        (p.1 = "DEL_YN" ∧ ∃ b, p.2 = Value.bool b) ∨
        (p.1 ≠ "NOTIFICATION_DATE" ∧ p.1 ≠ "DEL_YN" ∧ ∃ s, p.2 = Value.str s) := by
  intro raw
  constructor
  · unfold clean_record
    rw [List.map_map]
    conv_rhs => rw [← List.map_id MIXTURE_COLUMNS]
    refine List.map_congr_left (fun col _ => ?_)
    simp only [Function.comp, id]
    by_cases h1 : col = "NOTIFICATION_DATE"
    · simp [h1]
    · by_cases h2 : col = "DEL_YN"
      · simp [h1, h2]
      · simp [h1, h2]
  · intro p hp
    rcases List.mem_map.mp hp with ⟨col, hcol, hf⟩
    by_cases h1 : col = "NOTIFICATION_DATE"
    · left
      subst h1
      simp only [if_pos rfl] at hf
      subst hf
      refine ⟨rfl, ?_⟩
      cases hpd : _parse_date_yyyymmdd (resolve_field raw "NOTIFICATION_DATE") with
      | none => left; simp [hpd]
      | some s => right; exact ⟨s, by simp [hpd]⟩
    · by_cases h2 : col = "DEL_YN"
      · right; left
        subst h2
        simp only [if_neg (by decide : ¬ ("DEL_YN" : String) = "NOTIFICATION_DATE"),
          if_pos rfl] at hf
        subst hf
        refine ⟨rfl, ?_⟩
        by_cases hc : resolve_field raw "DEL_YN" = Value.str "정상" ∨
            resolve_field raw "DEL_YN" ∈ del_yn_falsy_tokens
        · exact ⟨false, by simp [if_pos hc]⟩
        · exact ⟨true, by simp [if_neg hc]⟩
      · right; right
        simp only [if_neg h1, if_neg h2] at hf
        subst hf
        refine ⟨h1, h2, ?_⟩
        by_cases hv : resolve_field raw col = Value.null
        · exact ⟨"", by simp [if_pos hv]⟩
        · exact ⟨pyStrip (pyStr (resolve_field raw col)), by simp [if_neg hv]⟩

/-- C2 witness: the shape property instantiated at the empty input
record and its first output entry. -/
theorem clean_record_shape_spec_witness :
    ("TYPE_NAME", Value.str "") ∈ clean_record [] ∧
    (((("TYPE_NAME", Value.str "") : String × Value).1 = "NOTIFICATION_DATE" ∧
      ((("TYPE_NAME", Value.str "") : String × Value).2 = Value.null ∨
        ∃ s, (("TYPE_NAME", Value.str "") : String × Value).2 = Value.str s)) ∨
    ((("TYPE_NAME", Value.str "") : String × Value).1 = "DEL_YN" ∧
      ∃ b, (("TYPE_NAME", Value.str "") : String × Value).2 = Value.bool b) ∨
    ((("TYPE_NAME", Value.str "") : String × Value).1 ≠ "NOTIFICATION_DATE" ∧
      (("TYPE_NAME", Value.str "") : String × Value).1 ≠ "DEL_YN" ∧
      ∃ s, (("TYPE_NAME", Value.str "") : String × Value).2 = Value.str s)) :=
  ⟨by decide, (clean_record_shape_spec []).2 ("TYPE_NAME", Value.str "") (by decide)⟩

/-- C3: `clean_record` maps `DEL_YN` to `false` exactly when the
resolved value equals the Korean token "정상" or belongs to the falsy
token set (boolean false, "f", "false", "False", "N", "n", "0",
numeric 0); every other value maps to `true`, and a missing `DEL_YN`
also maps to `true`. -/
theorem del_yn_spec :
    (∀ v : Value,
      (clean_record [("DEL_YN", v)]).lookup "DEL_YN" =
        some (Value.bool
          (if v = Value.str "정상" ∨
              v ∈ [Value.bool false, Value.str "f", Value.str "false", Value.str "False",
                   Value.str "N", Value.str "n", Value.str "0", Value.int 0]
           then false else true))) ∧
    (clean_record []).lookup "DEL_YN" = some (Value.bool true) := by
  constructor
  · intro v
    have hL : (clean_record [("DEL_YN", v)]).lookup "DEL_YN" =
        some (if v = Value.str "정상" ∨ v ∈ del_yn_falsy_tokens then Value.bool false
              else Value.bool true) := rfl
    rw [hL]
    by_cases h : v = Value.str "정상" ∨ v ∈ del_yn_falsy_tokens
    · rw [if_pos h, if_pos (by simpa [del_yn_falsy_tokens] using h)]
    · rw [if_neg h, if_neg (by simpa [del_yn_falsy_tokens] using h)]
  · decide

/-- C4 counterexample: the resolved value numeric 0 is neither null
nor empty, so the claim requires the pass-through "0", but the code
treats every Python-falsy value as missing and yields null. -/
theorem notification_date_cex :
    (clean_record [("NOTIFICATION_DATE", Value.int 0)]).lookup "NOTIFICATION_DATE" =
      some Value.null ∧
    (some Value.null : Option Value) ≠ some (Value.str "0") :=
  ⟨by decide, by decide⟩

/-- C4 (amended): an 8-character all-numeric string (after stripping)
is reformatted `YYYY-MM-DD`; any other non-falsy value passes through
stripped; any Python-falsy resolved value — null, empty string,
numeric 0, or boolean false — yields null (not only null/empty as the
claim stated).  Concrete cases: "20230115" becomes "2023-01-15",
"2023-01-15" is unchanged, missing and "" give null. -/
theorem notification_date_spec :
    (∀ v : Value, pyFalsy v = true →
      (clean_record [("NOTIFICATION_DATE", v)]).lookup "NOTIFICATION_DATE" = some Value.null) ∧
    (∀ s : String, pyFalsy (Value.str s) = false →
      ((pyStrip s).length == 8 && pyIsdigit (pyStrip s)) = true →
      (clean_record [("NOTIFICATION_DATE", Value.str s)]).lookup "NOTIFICATION_DATE" =
        some (Value.str (pySlice (pyStrip s) 0 4 ++ "-" ++ pySlice (pyStrip s) 4 6 ++ "-" ++
          pySlice (pyStrip s) 6 8))) ∧
    (∀ s : String, pyFalsy (Value.str s) = false →
      ((pyStrip s).length == 8 && pyIsdigit (pyStrip s)) = false →
      (clean_record [("NOTIFICATION_DATE", Value.str s)]).lookup "NOTIFICATION_DATE" =
        some (Value.str (pyStrip s))) ∧
    (clean_record [("NOTIFICATION_DATE", Value.str "20230115")]).lookup "NOTIFICATION_DATE" =
      some (Value.str "2023-01-15") ∧
    (clean_record [("NOTIFICATION_DATE", Value.str "2023-01-15")]).lookup "NOTIFICATION_DATE" =
      some (Value.str "2023-01-15") ∧
    (clean_record []).lookup "NOTIFICATION_DATE" = some Value.null ∧
    (clean_record [("NOTIFICATION_DATE", Value.str "")]).lookup "NOTIFICATION_DATE" =
      some Value.null := by
  refine ⟨?_, ?_, ?_, by decide, by decide, by decide, by decide⟩
  · intro v h
    have hL : (clean_record [("NOTIFICATION_DATE", v)]).lookup "NOTIFICATION_DATE" =
        some ((_parse_date_yyyymmdd v).elim Value.null Value.str) := rfl
    rw [hL]
    unfold _parse_date_yyyymmdd
    rw [if_pos h]
    rfl
  · intro s h1 h2
    have hL : (clean_record [("NOTIFICATION_DATE", Value.str s)]).lookup "NOTIFICATION_DATE" =
        some ((_parse_date_yyyymmdd (Value.str s)).elim Value.null Value.str) := rfl
    rw [hL]
    unfold _parse_date_yyyymmdd
    rw [if_neg (by simp [h1]), if_pos]
    · rfl
    · exact h2
  · intro s h1 h2
    have hL : (clean_record [("NOTIFICATION_DATE", Value.str s)]).lookup "NOTIFICATION_DATE" =
        some ((_parse_date_yyyymmdd (Value.str s)).elim Value.null Value.str) := rfl
    rw [hL]
    unfold _parse_date_yyyymmdd
    simp only [pyStr]
    rw [if_neg (by simp [h1]), if_neg (by simp [h2])]
    rfl

/-- C4 witness: the null-for-falsy clause instantiated at the null
value. -/
theorem notification_date_spec_witness :
    pyFalsy Value.null = true ∧
    (clean_record [("NOTIFICATION_DATE", Value.null)]).lookup "NOTIFICATION_DATE" =
      some Value.null :=
  ⟨by decide, notification_date_spec.1 Value.null (by decide)⟩

/-- C5 (amended): an object item containing the key "item" yields the
value stored under that key — in particular the envelope with a record
payload yields exactly that record — while an object without "item"
and a non-object item are kept as-is, and the accumulated sequence is
the concatenation of the per-page unwrapped item lists, preserving
page order and within-page order. -/
theorem unwrap_item_spec :
    (∀ X : RawRecord, unwrap_item (Item.obj [("item", Field.record X)]) = RawRecord.toItem X) ∧
    (∀ (entries : List (String × Field)) (f : Field), entries.lookup "item" = some f →
      unwrap_item (Item.obj entries) = f.toItem) ∧
    (∀ entries : List (String × Field), entries.lookup "item" = none →
      unwrap_item (Item.obj entries) = Item.obj entries) ∧
    (∀ v : Value, unwrap_item (Item.atom v) = Item.atom v) ∧
    (∀ pages : List (List Item),
      collect_items pages = (pages.map (fun its => its.map unwrap_item)).flatten) := by
  refine ⟨?_, ?_, ?_, ?_, ?_⟩
  · intro X; rfl
  · intro entries f h
    show (match entries.lookup "item" with
          | some g => g.toItem
          | none => Item.obj entries) = f.toItem
    rw [h]
  · intro entries h
    show (match entries.lookup "item" with
          | some g => g.toItem
          | none => Item.obj entries) = Item.obj entries
    rw [h]
  · intro v; rfl
  · intro pages
    unfold collect_items
    rw [collect_items_foldl_append (fun its => its.map unwrap_item) pages []]
    rfl

/-- C5 counterexample: the object with an "item" key holding a plain
string is not an envelope around a raw record, so the claim requires
it to be kept as-is, but the code unwraps it to the bare string. -/
theorem unwrap_item_keep_cex :
    unwrap_item (Item.obj [("item", Field.atom (Value.str "abc"))]) =
      Item.atom (Value.str "abc") ∧
    Item.atom (Value.str "abc") ≠ Item.obj [("item", Field.atom (Value.str "abc"))] :=
  ⟨rfl, by decide⟩

/-- C5 witness: the unwrap clause instantiated at a one-field envelope
around a one-field record. -/
theorem unwrap_item_spec_witness :
    ([("item", Field.record [("A", Value.int 1)])].lookup "item" =
      some (Field.record [("A", Value.int 1)])) ∧
    unwrap_item (Item.obj [("item", Field.record [("A", Value.int 1)])]) =
      Field.toItem (Field.record [("A", Value.int 1)]) :=
  ⟨by decide, unwrap_item_spec.2.1 _ _ (by decide)⟩

/-- C6: `resolve_field` tries the exact column name, then its
lowercase form, then its uppercase form, in that priority order, with
null when all three are missing; consequently a record carrying the 19
logical values under all-lowercase keys and one carrying them under
all-uppercase keys normalize to identical output. -/
theorem resolve_field_case_spec :
    (∀ (raw : RawRecord) (col : String) (v : Value),
      raw.lookup col = some v → resolve_field raw col = v) ∧
    (∀ (raw : RawRecord) (col : String) (v : Value),
      raw.lookup col = none → raw.lookup (pyLower col) = some v →
      resolve_field raw col = v) ∧
    (∀ (raw : RawRecord) (col : String) (v : Value),
      raw.lookup col = none → raw.lookup (pyLower col) = none →
      raw.lookup (pyUpper col) = some v → resolve_field raw col = v) ∧
    (∀ (raw : RawRecord) (col : String),
      raw.lookup col = none → raw.lookup (pyLower col) = none →
      raw.lookup (pyUpper col) = none → resolve_field raw col = Value.null) ∧
    (∀ v1 v2 v3 v4 v5 v6 v7 v8 v9 v10 v11 v12 v13 v14 v15 v16 v17 v18 v19 : Value,
      clean_record [("type_name", v1), ("mix_type", v2), ("ingr_code", v3),
        ("ingr_eng_name", v4), ("ingr_kor_name", v5), ("mix", v6), ("ori", v7),
        ("class", v8), ("mixture_mix_type", v9), ("mixture_ingr_code", v10),
        ("mixture_ingr_eng_name", v11), ("mixture_ingr_kor_name", v12),
        ("mixture_mix", v13), ("mixture_ori", v14), ("mixture_class", v15),
        ("notification_date", v16), ("prohbt_content", v17), ("remark", v18),
        ("del_yn", v19)] =
      clean_record [("TYPE_NAME", v1), ("MIX_TYPE", v2), ("INGR_CODE", v3),
        ("INGR_ENG_NAME", v4), ("INGR_KOR_NAME", v5), ("MIX", v6), ("ORI", v7),
        ("CLASS", v8), ("MIXTURE_MIX_TYPE", v9), ("MIXTURE_INGR_CODE", v10),
        ("MIXTURE_INGR_ENG_NAME", v11), ("MIXTURE_INGR_KOR_NAME", v12),
        ("MIXTURE_MIX", v13), ("MIXTURE_ORI", v14), ("MIXTURE_CLASS", v15),
        ("NOTIFICATION_DATE", v16), ("PROHBT_CONTENT", v17), ("REMARK", v18),
        ("DEL_YN", v19)]) := by
  refine ⟨?_, ?_, ?_, ?_, ?_⟩
  · intro raw col v h
    unfold resolve_field
    rw [h]
  · intro raw col v h1 h2
    unfold resolve_field
    rw [h1, h2]
  · intro raw col v h1 h2 h3
    unfold resolve_field
    rw [h1, h2, h3]
  · intro raw col h1 h2 h3
    unfold resolve_field
    rw [h1, h2, h3]
  · intro v1 v2 v3 v4 v5 v6 v7 v8 v9 v10 v11 v12 v13 v14 v15 v16 v17 v18 v19
    rfl

/-- C6 witness: the exact name takes priority over the lowercase
binding in a record carrying both. -/
theorem resolve_field_case_spec_witness :
    ([("DEL_YN", Value.str "x"), ("del_yn", Value.str "y")].lookup "DEL_YN" =
      some (Value.str "x")) ∧
    resolve_field [("DEL_YN", Value.str "x"), ("del_yn", Value.str "y")] "DEL_YN" =
      Value.str "x" :=
  ⟨by decide, resolve_field_case_spec.1 _ "DEL_YN" _ (by decide)⟩

/-- C7: for batch size B > 0 the batcher issues exactly
`ceil(N / B) = (N + B - 1) / B` upsert calls on contiguous slices
whose concatenation is the original sequence, every batch has at most
B rows, every batch except possibly the last has exactly B rows, the
empty input issues no call, and 1201 rows at B = 500 give batches of
sizes [500, 500, 201]. -/
theorem upsert_to_supabase_spec :
    (∀ (rows : List RawRecord) (bs : Nat), 0 < bs →
      (upsert_to_supabase rows bs).length = (rows.length + bs - 1) / bs ∧
      (upsert_to_supabase rows bs).flatten = rows ∧
      (∀ b ∈ upsert_to_supabase rows bs, b.length ≤ bs) ∧
      (∀ i, i + 1 < (upsert_to_supabase rows bs).length →
        ((upsert_to_supabase rows bs).getD i []).length = bs)) ∧
    upsert_to_supabase ([] : List RawRecord) 500 = [] ∧
    (upsert_to_supabase (List.replicate 1201 ([] : RawRecord)) 500).map List.length =
      [500, 500, 201] := by
  refine ⟨?_, ?_, ?_⟩
  · intro rows bs hbs
    by_cases hz : rows.length = 0
    · have hrows : rows = [] := List.length_eq_zero.mp hz
      subst hrows
      have hu : upsert_to_supabase ([] : List RawRecord) bs = [] := by
        unfold upsert_to_supabase
        simp
      refine ⟨?_, ?_, ?_, ?_⟩
      · rw [hu]
        simp
        exact (Nat.div_eq_of_lt (by omega)).symm
      · rw [hu]; rfl
      · rw [hu]; intro b hb; cases hb
      · rw [hu]; intro i hi; simp at hi
    · have hN : 0 < rows.length := Nat.pos_of_ne_zero hz
      set N := rows.length with hNdef
      have hdm := Nat.div_add_mod (N + bs - 1) bs
      have hm : (N + bs - 1) % bs < bs := Nat.mod_lt _ hbs
      set q := (N + bs - 1) / bs with hq
      have hub : bs * q ≤ N + bs - 1 := by omega
      have hcover : N ≤ q * bs := by
        have hqbs : q * bs = bs * q := Nat.mul_comm _ _
        omega
      have hform : upsert_to_supabase rows bs =
          (List.range q).map (fun i => (rows.drop (i * bs)).take bs) := by
        unfold upsert_to_supabase
        rw [if_neg hz]
        have : (⌈((N : ℕ) : ℚ) / ((bs : ℕ) : ℚ)⌉).toNat = q := by
          rw [ceil_natCast_div N bs hbs, hq, Int.toNat_natCast]
        simp only [← hNdef, this]
      refine ⟨?_, ?_, ?_, ?_⟩
      · rw [hform, List.length_map, List.length_range]
      · rw [hform]
        exact range_map_drop_take_flatten bs q rows hcover
      · rw [hform]
        intro b hb
        rcases List.mem_map.mp hb with ⟨i, _, rfl⟩
        simp [List.length_take]
      · rw [hform]
        intro i hi
        rw [List.length_map, List.length_range] at hi
        have hgd : ((List.range q).map (fun i => (rows.drop (i * bs)).take bs)).getD i [] =
            (rows.drop (i * bs)).take bs := by
          unfold List.getD
          rw [List.get?_map, List.get?_range (by omega : i < q)]
          rfl
        rw [hgd, List.length_take, List.length_drop]
        have hi1 : i + 1 ≤ q - 1 := by omega
        have hmul : (i + 1) * bs ≤ (q - 1) * bs := Nat.mul_le_mul_right bs hi1
        have hsub : (q - 1) * bs = q * bs - bs := by rw [Nat.sub_mul, one_mul]
        have hqbs : q * bs = bs * q := Nat.mul_comm _ _
        have hadd : (i + 1) * bs = i * bs + bs := by rw [Nat.add_mul, one_mul]
        omega
  · unfold upsert_to_supabase
    simp
  · have hlen : (List.replicate 1201 ([] : RawRecord)).length = 1201 := by simp
    unfold upsert_to_supabase
    rw [if_neg (by simp)]
    have hceil : (⌈((1201 : ℕ) : ℚ) / ((500 : ℕ) : ℚ)⌉).toNat = 3 := by
      rw [ceil_natCast_div 1201 500 (by norm_num)]
      rfl
    simp only [hlen, hceil]
    decide

/-- C7 witness: the partition property instantiated at three records
and batch size two. -/
theorem upsert_to_supabase_spec_witness :
    0 < 2 ∧
    (upsert_to_supabase [[("A", Value.int 0)], [("A", Value.int 1)], [("A", Value.int 2)]]
      2).flatten =
      [[("A", Value.int 0)], [("A", Value.int 1)], [("A", Value.int 2)]] :=
  ⟨by decide,
   (upsert_to_supabase_spec.1
     [[("A", Value.int 0)], [("A", Value.int 1)], [("A", Value.int 2)]] 2 (by decide)).2.1⟩

/-- C8: `clean_record` is total — it always yields a full 19-column
record — and substitutes the empty string for a null or missing value
in every plain (non-date, non-flag) column. -/
theorem clean_record_total_spec :
    ∀ raw : RawRecord,
      (clean_record raw).length = MIXTURE_COLUMNS.length ∧
      ∀ col ∈ MIXTURE_COLUMNS, col ≠ "NOTIFICATION_DATE" → col ≠ "DEL_YN" →
        resolve_field raw col = Value.null → (col, Value.str "") ∈ clean_record raw := by
  intro raw
  constructor
  · simp [clean_record]
  · intro col hcol h1 h2 h3
    unfold clean_record
    refine List.mem_map.mpr ⟨col, hcol, ?_⟩
    rw [if_neg h1, if_neg h2]
    simp [h3]

/-- C8 witness: the default-substitution property instantiated at the
empty record and the TYPE_NAME column. -/
theorem clean_record_total_spec_witness :
    ("TYPE_NAME" : String) ∈ MIXTURE_COLUMNS ∧
    ("TYPE_NAME" : String) ≠ "NOTIFICATION_DATE" ∧
    ("TYPE_NAME" : String) ≠ "DEL_YN" ∧
    resolve_field [] "TYPE_NAME" = Value.null ∧
    ("TYPE_NAME", Value.str "") ∈ clean_record [] :=
  ⟨by decide, by decide, by decide, by decide,
   (clean_record_total_spec []).2 "TYPE_NAME" (by decide) (by decide) (by decide) (by decide)⟩

/-- C9: when the base URL is empty the pipeline fails with the
base-URL configuration error, when the base URL is present but the
service key is empty it fails with the service-key configuration
error, and in either case the error is raised with an empty request
trace — before any network activity. -/
theorem fetch_mixture_data_config_guard :
    ∀ (base_url service_key : String) (api : Nat → Int → PageResp) (rows : Int),
      (base_url = "" →
        fetch_mixture_data base_url service_key api rows =
          (Except.error ".env에서 MIXTURE_API_BASE_URL을 설정해주세요", [])) ∧
      (base_url ≠ "" → service_key = "" →
        fetch_mixture_data base_url service_key api rows =
          (Except.error ".env에서 MIXTURE_API_SERVICE_KEY를 설정해주세요", [])) ∧
      (base_url = "" ∨ service_key = "" →
        (∃ e, (fetch_mixture_data base_url service_key api rows).1 = Except.error e) ∧
        (fetch_mixture_data base_url service_key api rows).2 = []) := by
  intro base_url service_key api rows
  have h1 : base_url = "" → fetch_mixture_data base_url service_key api rows =
      (Except.error ".env에서 MIXTURE_API_BASE_URL을 설정해주세요", []) := by
    intro h
    unfold fetch_mixture_data
    rw [if_pos ((string_data_isEmpty_iff _).mpr h)]
  have h2 : base_url ≠ "" → service_key = "" →
      fetch_mixture_data base_url service_key api rows =
        (Except.error ".env에서 MIXTURE_API_SERVICE_KEY를 설정해주세요", []) := by
    intro hne h
    have hbne : ¬ base_url.data.isEmpty = true := fun ht =>
      hne ((string_data_isEmpty_iff _).mp ht)
    unfold fetch_mixture_data
    rw [if_neg hbne, if_pos ((string_data_isEmpty_iff _).mpr h)]
  refine ⟨h1, h2, ?_⟩
  intro h
  by_cases hbu : base_url = ""
  · rw [h1 hbu]
    exact ⟨⟨_, rfl⟩, rfl⟩
  · have hsk : service_key = "" := by tauto
    rw [h2 hbu hsk]
    exact ⟨⟨_, rfl⟩, rfl⟩

/-- C9 witness: the guard instantiated at an empty base URL. -/
theorem fetch_mixture_data_config_guard_witness :
    ("" : String) = "" ∧
    fetch_mixture_data "" "key" (fun _ _ => PageResp.mk none) 500 =
      (Except.error ".env에서 MIXTURE_API_BASE_URL을 설정해주세요", []) :=
  ⟨rfl, (fetch_mixture_data_config_guard "" "key" (fun _ _ => PageResp.mk none) 500).1 rfl⟩

/-- C10: when the probe response reports totalCount = 0, or lacks the
body or the totalCount field, and the page size is positive, the
collector issues no request beyond the probe and returns the empty
sequence. -/
theorem fetch_all_empty_probe_spec :
    ∀ (api : Nat → Int → PageResp) (rows : Int), 0 < rows →
      ((api 1 1).body = none ∨
        ∃ b, (api 1 1).body = some b ∧ (b.totalCount = none ∨ b.totalCount = some 0)) →
      fetch_all_from_api api rows = ([], [(1, 1)]) := by
  intro api rows hrows h
  have htc : body_total_count (api 1 1) = 0 := by
    unfold body_total_count
    rcases h with h | ⟨b, hb, h2⟩
    · rw [h]
    · rw [hb]; rcases h2 with h2 | h2 <;> simp [h2]
  have htp : total_pages 0 rows = 0 := by
    unfold total_pages
    rw [if_pos hrows]
    norm_num
  simp [fetch_all_from_api, htc, htp, collect_items]

/-- C10 witness: the empty-probe property instantiated at an oracle
that always answers with a bodyless response. -/
theorem fetch_all_empty_probe_spec_witness :
    0 < (500 : Int) ∧
    fetch_all_from_api (fun _ _ => PageResp.mk none) 500 = ([], [(1, 1)]) :=
  ⟨by decide,
   fetch_all_empty_probe_spec (fun _ _ => PageResp.mk none) 500 (by decide) (Or.inl rfl)⟩

end MixtureIngest
